import Mathlib

/-!
Verification of the `app` backend (services.py, config.py, repositories.py,
routers/conversation.py) against its specification.

The Python source is shallowly embedded: dictionaries returned by services
become structures, raised exceptions become `Except` errors, and the value
produced by `json.loads` on the provider reply is represented by an
`Option Json` (`none` models a `json.JSONDecodeError`, `some j` the parsed
value).  All definitions are executable.
-/

namespace App

/-- A Python value as produced by `json.loads`: `None`, booleans, numbers,
strings, lists and dictionaries (integer numbers suffice for this
development). -/
inductive Json where
  | null : Json
  | bool (b : Bool) : Json
  | num (n : Int) : Json
  | str (s : String) : Json
  | arr (elems : List Json) : Json
  | obj (fields : List (String × Json)) : Json

/-- `d.get(key, default)` on a Python dict that came from `json.loads`.
`json.loads` keeps the last of duplicate keys, hence the lookup on the
reversed field list. -/
def pyDictGet (fields : List (String × Json)) (key : String) (default : Json) : Json :=
  (fields.reverse.lookup key).getD default

/-- The Python exception classes that appear in services.py and its callers.
`jsonDecodeError` is `json.JSONDecodeError`, `keyError` is `KeyError`,
`attributeError` is `AttributeError` (raised when `.get` or `.lower()` is
called on a value that lacks the method), `valueError` is `ValueError`.
`rateLimitError`, `apiError`, `authenticationError` and `badRequestError`
are the openai client classes; in the openai client library
`RateLimitError`, `AuthenticationError` and `BadRequestError` are all
subclasses of `APIError`. -/
inductive PyExc where
  | jsonDecodeError : PyExc
  | keyError : PyExc
  | attributeError : PyExc
  | valueError (msg : String) : PyExc
  | rateLimitError (msg : String) : PyExc
  | apiError (msg : String) : PyExc
  | authenticationError (msg : String) : PyExc
  | badRequestError (msg : String) : PyExc
  | otherExc (msg : String) : PyExc
deriving Repr, DecidableEq

/-- `str(e)` as used in log/format strings: the message carried by the
exception. -/
def PyExc.message : PyExc → String
  | .jsonDecodeError => "Expecting value"
  | .keyError => "KeyError"
  | .attributeError => "AttributeError"
  | .valueError m => m
  | .rateLimitError m => m
  | .apiError m => m
  | .authenticationError m => m
  | .badRequestError m => m
  | .otherExc m => m

/-- `isinstance(e, RateLimitError)` for the openai class `RateLimitError`. -/
def PyExc.isRateLimit : PyExc → Bool
  | .rateLimitError _ => true
  | _ => false

/-- `isinstance(e, APIError)` for the openai class `APIError`; per the openai
client library's exception hierarchy this includes `RateLimitError`,
`AuthenticationError` and `BadRequestError`. -/
def PyExc.isAPIError : PyExc → Bool
  | .apiError _ => true
  | .rateLimitError _ => true
  | .authenticationError _ => true
  | .badRequestError _ => true
  | _ => false

/-! ### SMS Decision Orchestrator (`SMSDecisionService.make_decision`) -/

/-- The dictionary returned by `SMSDecisionService.make_decision`:
`{"decision": ..., "reply_text": ..., "processing_time_ms": ...}`.
`reply_text` is whatever Json value the payload's `reply` field held
(the code never coerces it to a string). -/
structure SMSDecision where
  decision : String
  reply_text : Json
  processing_time_ms : Int

/-- Python `str.lower()`, character by character.  Only the ASCII case
mapping matters here: the lowered string is compared against the ASCII
literals "yes" and "no", and no non-ASCII character lowers to an ASCII
letter of those words. -/
def pyLower (s : String) : String := String.mk (s.data.map Char.toLower)

/-- `response_json.get("decision", "no")` followed by `.lower()`
(services.py line 188).  `.get` raises `AttributeError` when the parsed
top-level value is not a dict, and `.lower()` raises `AttributeError` when
the retrieved decision value is not a string. -/
def getDecisionLower (j : Json) : Except PyExc String :=
  match j with
  | .obj fields =>
      match pyDictGet fields "decision" (.str "no") with
      | .str s => .ok (pyLower s)
      | _ => .error .attributeError
  | _ => .error .attributeError

/-- `response_json.get("reply", "")` (services.py line 189); `.get` raises
`AttributeError` on a non-dict. -/
def getReply (j : Json) : Except PyExc Json :=
  match j with
  | .obj fields => .ok (pyDictGet fields "reply" (.str ""))
  | _ => .error .attributeError

/-- The body of the `try` block of `SMSDecisionService.make_decision`
(services.py lines 184–200): parse the provider reply as JSON, read and
lowercase the `decision` field, read the `reply` field, and normalize any
decision other than "yes"/"no" to "no".  `parsed` is the outcome of
`json.loads(result["response"])`: `none` models a `json.JSONDecodeError`. -/
def makeDecisionTryBody (parsed : Option Json) (ptMs : Int) :
    Except PyExc SMSDecision :=
  match parsed with
  | none => .error .jsonDecodeError
  | some j =>
      match getDecisionLower j with
      | .error e => .error e
      | .ok dec =>
          match getReply j with
          | .error e => .error e
          | .ok reply =>
              .ok { decision := if dec = "yes" ∨ dec = "no" then dec else "no",
                    reply_text := reply, processing_time_ms := ptMs }

/-- `SMSDecisionService.make_decision` (services.py lines 159–208) from the
point where the completion result is in hand: run the `try` body and apply
the handler `except (json.JSONDecodeError, KeyError)`, which returns the
fallback record `{"decision": "no", "reply_text": "Unable to process
request"}`.  Any other exception (notably `AttributeError`) propagates.
`parsed` is the outcome of `json.loads` on `result["response"]` and `ptMs`
is `result["processing_time_ms"]`. -/
def make_decision (parsed : Option Json) (ptMs : Int) : Except PyExc SMSDecision :=
  match makeDecisionTryBody parsed ptMs with
  | .ok r => .ok r
  | .error e =>
      if e = .jsonDecodeError ∨ e = .keyError then
        .ok { decision := "no", reply_text := .str "Unable to process request",
              processing_time_ms := ptMs }
      else .error e

/-- The inputs on which `make_decision` raises an uncaught exception: a reply
that parses as JSON whose top-level value is not an object, or an object
whose `decision` field holds a non-string value. -/
def makeDecisionRaises (parsed : Option Json) : Bool :=
  match parsed with
  | none => false
  | some (.obj fields) =>
      match pyDictGet fields "decision" (.str "no") with
      | .str _ => false
      | _ => true
  | some _ => true

/-! ### Configuration (config.py `Settings`) -/

/-- The fields of `Settings` (config.py) consumed by `OpenAIService.__init__`,
with their defaults.  `openai_temperature` and `retry_delay` are Python
floats with exact decimal defaults, modelled as rationals. -/
structure Settings where
  openai_model : String := "gpt-3.5-turbo"
  openai_max_tokens : Nat := 500
  openai_temperature : ℚ := 7 / 10
  openai_timeout : Nat := 20
  max_retries : Nat := 3
  retry_delay : ℚ := 1

/-- `get_settings()` with no environment overrides. -/
def defaultSettings : Settings := {}

/-! ### Completion Client (`OpenAIService`) -/

/-- One message of the ordered message list sent to the provider. -/
structure Message where
  role : String
  content : String

/-- The message list built by `chat_completion` (services.py lines 56–61):
the system message, if provided, precedes the user message. -/
def buildMessages (text : String) (system_prompt : Option String) : List Message :=
  (match system_prompt with
    | some s => [{ role := "system", content := s }]
    | none => []) ++ [{ role := "user", content := text }]

/-- The request shape handed to `self.client.chat.completions.create`
(services.py lines 64–69). -/
structure ChatRequest where
  model : String
  messages : List Message
  max_tokens : Nat
  temperature : ℚ

/-- The request `chat_completion` builds for input `text` and optional
`system_prompt` under settings `s`. -/
def buildChatRequest (s : Settings) (text : String) (system_prompt : Option String) :
    ChatRequest :=
  { model := s.openai_model, messages := buildMessages text system_prompt,
    max_tokens := s.openai_max_tokens, temperature := s.openai_temperature }

/-- What one awaited provider call can do, as observed by `chat_completion`:
return a response (with the provider-reported token counts), exceed the
configured timeout (`asyncio.wait_for` then raises `asyncio.TimeoutError`),
or raise an exception. -/
inductive ProviderOutcome where
  | ok (response : String) (prompt_tokens completion_tokens : Nat) : ProviderOutcome
  | timedOut : ProviderOutcome
  | raises (e : PyExc) : ProviderOutcome

/-- The dictionary returned by a successful `chat_completion`
(services.py lines 80–86). -/
structure CompletionResult where
  response : String
  input_tokens : Nat
  output_tokens : Nat
  processing_time_ms : Int
  model_used : String

/-- One attempt of `chat_completion` (the `try`/`except` body, services.py
lines 55–99): on success package the result; on `asyncio.TimeoutError`
raise `APIError("OpenAI request timeout")`; re-raise `RateLimitError` and
`APIError` unchanged; wrap any other exception in
`APIError("Unexpected error: ...")`.  `ptMs` stands for the measured
wall-clock latency of the attempt. -/
def chatCompletionOnce (outcome : ProviderOutcome) (model : String) (ptMs : Int) :
    Except PyExc CompletionResult :=
  match outcome with
  | .ok resp pt ct =>
      .ok { response := resp, input_tokens := pt, output_tokens := ct,
            processing_time_ms := ptMs, model_used := model }
  | .timedOut => .error (.apiError "OpenAI request timeout")
  | .raises e =>
      if e.isRateLimit then .error e
      else if e.isAPIError then .error e
      else .error (.apiError ("Unexpected error: " ++ e.message))

/-- The attempt cap written literally in the `@retry` decorator:
`stop_after_attempt(3)` (services.py line 30). -/
def STOP_AFTER_ATTEMPT : Nat := 3

/-- `retry_if_exception_type((RateLimitError, APIError))` (services.py
line 32): retry exactly when the raised exception is an instance of one of
the two classes. -/
def shouldRetry (e : PyExc) : Bool := e.isRateLimit || e.isAPIError

/-- `wait_exponential(multiplier=1, min=1, max=10)` (services.py line 31):
the wait in seconds before the attempt after attempt `n`, namely
`multiplier * 2 ^ (n - 1)` clamped into `[min, max]`. -/
def retryWait (n : Nat) : ℚ :=
  max (max 0 1) (min ((1 : ℚ) * 2 ^ (n - 1)) 10)

/-- The tenacity retry loop: run attempt number `attempt`; on success stop; on
an exception matching the retry predicate, retry while attempts remain
(`fuel` counts the attempts still allowed after the current one); otherwise
re-raise (`reraise=True` surfaces the last exception itself).  Returns the
final result together with the number of the attempt that produced it. -/
def retryGo (call : Nat → Except PyExc CompletionResult) :
    Nat → Nat → Except PyExc CompletionResult × Nat
  | attempt, 0 =>
      match call attempt with
      | .ok r => (.ok r, attempt)
      | .error e => (.error e, attempt)
  | attempt, fuel + 1 =>
      match call attempt with
      | .ok r => (.ok r, attempt)
      | .error e =>
          if shouldRetry e then retryGo call (attempt + 1) fuel
          else (.error e, attempt)

/-- `OpenAIService.chat_completion` under its `@retry` decorator
(services.py lines 29–99): build the request from `text` and
`system_prompt`, then run up to `STOP_AFTER_ATTEMPT` attempts against the
provider.  The provider is modelled as a function from the request and the
attempt number to that attempt's outcome; `ptMs` gives the measured latency
of each attempt.  Returns the final result and the total number of attempts
made. -/
def chat_completion (s : Settings) (provider : ChatRequest → Nat → ProviderOutcome)
    (text : String) (system_prompt : Option String) (ptMs : Nat → Int) :
    Except PyExc CompletionResult × Nat :=
  let req := buildChatRequest s text system_prompt
  retryGo (fun n => chatCompletionOnce (provider req n) s.openai_model (ptMs n))
    1 (STOP_AFTER_ATTEMPT - 1)

/-- `OpenAIService.validate_response` (services.py lines 101–111):
`bool(response and len(response) > 0 and len(response) < 10000)`. -/
def validate_response (response : String) : Bool :=
  !(response = "") && response.length > 0 && response.length < 10000

/-! ### Conversation Orchestrator (`ConversationService`) -/

/-- The fixed system prompt set in `ConversationService.__init__`
(services.py lines 123–126). -/
def CONVERSATION_SYSTEM_PROMPT : String :=
  "You are a helpful, concise, and professional assistant. " ++
  "Provide clear and direct responses. Keep responses under 500 tokens."

/-- `ConversationService.process_conversation` (services.py lines 128–150):
call `chat_completion` with the fixed system prompt; if the client fails the
exception propagates; if the reply fails `validate_response`, raise
`ValueError("Invalid response from OpenAI")`; otherwise return the result. -/
def process_conversation (s : Settings) (provider : ChatRequest → Nat → ProviderOutcome)
    (text : String) (ptMs : Nat → Int) : Except PyExc CompletionResult :=
  match (chat_completion s provider text (some CONVERSATION_SYSTEM_PROMPT) ptMs).1 with
  | .error e => .error e
  | .ok result =>
      if validate_response result.response then .ok result
      else .error (.valueError "Invalid response from OpenAI")

/-! ### Conversation request handler (routers/conversation.py) -/

/-- A row of the `conversation_logs` table as built by the handler
(routers/conversation.py lines 52–60). -/
structure ConversationLogRow where
  user_id : Nat
  input_text : String
  gpt_response : String
  input_tokens : Nat
  output_tokens : Nat
  processing_time_ms : Int
  model_used : String

/-- The transport-level outcome of the conversation handler: the persisted
log row on success, or an HTTP error with status code and detail. -/
inductive HandlerOutcome where
  | ok (row : ConversationLogRow) : HandlerOutcome
  | httpError (statusCode : Nat) (detail : String) : HandlerOutcome

/-- The `POST /conversation/` handler (routers/conversation.py lines 19–84):
404 when the referenced user does not exist; otherwise run
`process_conversation` and persist one `ConversationLog` row on success; an
`APIError` becomes 503 "AI service temporarily unavailable" and any other
exception becomes 500 "Error processing conversation".  The second
component is the list of log rows the handler persisted. -/
def conversationHandler (s : Settings) (provider : ChatRequest → Nat → ProviderOutcome)
    (userExists : Bool) (userId : Nat) (text : String) (ptMs : Nat → Int) :
    HandlerOutcome × List ConversationLogRow :=
  if !userExists then (.httpError 404 "User not found", [])
  else
    match process_conversation s provider text ptMs with
    | .ok result =>
        let row : ConversationLogRow :=
          { user_id := userId, input_text := text, gpt_response := result.response,
            input_tokens := result.input_tokens, output_tokens := result.output_tokens,
            processing_time_ms := result.processing_time_ms,
            model_used := result.model_used }
        (.ok row, [row])
    | .error e =>
        if e.isAPIError then
          (.httpError 503 "AI service temporarily unavailable", [])
        else (.httpError 500 "Error processing conversation", [])

/-! ### Persistence Gateway (repositories.py) -/

/-- A row of the `users` table (models.py `User`); timestamp columns are
omitted, no claim mentions them. -/
structure UserRec where
  id : Nat
  username : String
  email : String
  phone_number : Option String
  is_active : Bool
deriving Repr, DecidableEq

/-- `UserUpdate` (schemas.py) under `model_dump(exclude_unset=True)`:
`some v` is a field explicitly supplied in the request, `none` an unset
field that the update leaves alone. -/
structure UserUpdate where
  email : Option String := none
  phone_number : Option (Option String) := none
  is_active : Option Bool := none

/-- A row of the `user_preferences` table (models.py `UserPreference`). -/
structure PreferenceRec where
  id : Nat
  user_id : Nat
  language : String
  tts_voice : String
  auto_reply_enabled : Bool
  conversation_timeout : Nat
  notification_email : Option String
deriving Repr, DecidableEq

/-- `UserPreferenceUpdate` (schemas.py) under
`model_dump(exclude_unset=True)`. -/
structure PreferenceUpdate where
  language : Option String := none
  tts_voice : Option String := none
  auto_reply_enabled : Option Bool := none
  conversation_timeout : Option Nat := none
  notification_email : Option (Option String) := none

/-- `UserRepository.get` (repositories.py lines 34–37): first row whose
primary key matches. -/
def userGet (store : List UserRec) (user_id : Nat) : Option UserRec :=
  store.find? (fun u => u.id == user_id)

/-- The `setattr` loop of `UserRepository.update` (repositories.py
lines 64–66) applied to one row. -/
def applyUserUpdate (u : UserRec) (upd : UserUpdate) : UserRec :=
  { u with email := upd.email.getD u.email,
           phone_number := upd.phone_number.getD u.phone_number,
           is_active := upd.is_active.getD u.is_active }

/-- `UserRepository.update` (repositories.py lines 58–71): fetch the row; if
absent return `None` leaving the store as is; otherwise apply the set
fields and commit.  Returns the updated row (or `none`) and the store after
the call. -/
def userUpdate (store : List UserRec) (user_id : Nat) (upd : UserUpdate) :
    Option UserRec × List UserRec :=
  match userGet store user_id with
  | none => (none, store)
  | some u =>
      let u' := applyUserUpdate u upd
      (some u', store.map (fun v => if v.id == user_id then u' else v))

/-- `UserRepository.delete` (repositories.py lines 73–81): fetch the row; if
absent return `False` leaving the store as is; otherwise delete and commit.
Returns the success flag and the store after the call. -/
def userDelete (store : List UserRec) (user_id : Nat) : Bool × List UserRec :=
  match userGet store user_id with
  | none => (false, store)
  | some _ => (true, store.filter (fun v => !(v.id == user_id)))

/-- `UserPreferenceRepository.get` (repositories.py lines 98–103). -/
def prefGet (store : List PreferenceRec) (preference_id : Nat) : Option PreferenceRec :=
  store.find? (fun p => p.id == preference_id)

/-- The `setattr` loop of `UserPreferenceRepository.update` (repositories.py
lines 120–122) applied to one row. -/
def applyPrefUpdate (p : PreferenceRec) (upd : PreferenceUpdate) : PreferenceRec :=
  { p with language := upd.language.getD p.language,
           tts_voice := upd.tts_voice.getD p.tts_voice,
           auto_reply_enabled := upd.auto_reply_enabled.getD p.auto_reply_enabled,
           conversation_timeout := upd.conversation_timeout.getD p.conversation_timeout,
           notification_email := upd.notification_email.getD p.notification_email }

/-- `UserPreferenceRepository.update` (repositories.py lines 112–127). -/
def prefUpdate (store : List PreferenceRec) (preference_id : Nat) (upd : PreferenceUpdate) :
    Option PreferenceRec × List PreferenceRec :=
  match prefGet store preference_id with
  | none => (none, store)
  | some p =>
      let p' := applyPrefUpdate p upd
      (some p', store.map (fun q => if q.id == preference_id then p' else q))

/-- `UserPreferenceRepository.delete` (repositories.py lines 129–137). -/
def prefDelete (store : List PreferenceRec) (preference_id : Nat) :
    Bool × List PreferenceRec :=
  match prefGet store preference_id with
  | none => (false, store)
  | some _ => (true, store.filter (fun q => !(q.id == preference_id)))

/-! ### Concrete provider behaviors used to instantiate the statements -/

/-- A provider that is rate-limited on the first two attempts and succeeds
on the third. -/
def flakyProvider : ChatRequest → Nat → ProviderOutcome := fun _ n =>
  if n ≤ 2 then .raises (.rateLimitError "rate limited") else .ok "hello" 7 5

/-- A provider that is rate-limited on every attempt. -/
def alwaysRateLimited : ChatRequest → Nat → ProviderOutcome := fun _ _ =>
  .raises (.rateLimitError "rate limited")

/-- A provider whose call fails authentication on every attempt. -/
def alwaysAuthFailure : ChatRequest → Nat → ProviderOutcome := fun _ _ =>
  .raises (.authenticationError "Invalid API key")

/-- A provider that never responds within the configured timeout. -/
def neverResponds : ChatRequest → Nat → ProviderOutcome := fun _ _ => .timedOut

/-- A provider that returns an empty reply. -/
def emptyReplyProvider : ChatRequest → Nat → ProviderOutcome := fun _ _ => .ok "" 7 0

/-! ## Helper lemmas -/

/-- A JSON-decode failure lands in the `except` handler and produces the
fallback record. -/
theorem make_decision_none (ptMs : Int) :
    make_decision none ptMs =
      .ok { decision := "no", reply_text := .str "Unable to process request",
            processing_time_ms := ptMs } := rfl

/-- When the parsed reply is an object whose `decision` lookup yields a
string, `make_decision` succeeds with the lowercased, normalized decision
and the object's `reply` field (defaulting to `""`). -/
theorem make_decision_obj_str (fields : List (String × Json)) (s : String) (ptMs : Int)
    (h : pyDictGet fields "decision" (.str "no") = .str s) :
    make_decision (some (.obj fields)) ptMs =
      .ok { decision := if pyLower s = "yes" ∨ pyLower s = "no" then pyLower s else "no",
            reply_text := pyDictGet fields "reply" (.str ""),
            processing_time_ms := ptMs } := by
  simp [make_decision, makeDecisionTryBody, getDecisionLower, getReply, h]

/-- When the parsed reply is an object whose `decision` lookup yields a
non-string, `.lower()` raises an `AttributeError` that the handler does not
catch. -/
theorem make_decision_obj_nonstr (fields : List (String × Json)) (ptMs : Int)
    (h : ∀ s, pyDictGet fields "decision" (.str "no") ≠ .str s) :
    make_decision (some (.obj fields)) ptMs = .error .attributeError := by
  rcases hv : pyDictGet fields "decision" (Json.str "no") with _ | b | n | s | xs | fs
  case str => exact absurd hv (h s)
  all_goals simp [make_decision, makeDecisionTryBody, getDecisionLower, hv]

/-- When the parsed reply is not an object, `.get` raises an
`AttributeError` that the handler does not catch. -/
theorem make_decision_nonobj (j : Json) (ptMs : Int)
    (h : ∀ fields, j ≠ .obj fields) :
    make_decision (some j) ptMs = .error .attributeError := by
  cases j
  case obj fields => exact absurd rfl (h fields)
  all_goals simp [make_decision, makeDecisionTryBody, getDecisionLower]

/-- Every record the `try` body returns carries a decision of "yes" or
"no". -/
theorem makeDecisionTryBody_ok_decision (parsed : Option Json) (ptMs : Int)
    (r : SMSDecision) (h : makeDecisionTryBody parsed ptMs = .ok r) :
    r.decision = "yes" ∨ r.decision = "no" := by
  cases parsed with
  | none => simp [makeDecisionTryBody] at h
  | some j =>
      simp only [makeDecisionTryBody] at h
      rcases hd : getDecisionLower j with e | dec <;> rw [hd] at h
      · exact absurd h (by simp)
      · rcases hr : getReply j with e | reply <;> rw [hr] at h
        · exact absurd h (by simp)
        · simp only [Except.ok.injEq] at h
          subst h
          by_cases hc : dec = "yes" ∨ dec = "no"
          · show (if dec = "yes" ∨ dec = "no" then dec else "no") = "yes" ∨
               (if dec = "yes" ∨ dec = "no" then dec else "no") = "no"
            rw [if_pos hc]
            exact hc
          · simp [hc]

/-- Every record `make_decision` returns (whether from the `try` body or
from the `except` handler) carries a decision of "yes" or "no". -/
theorem make_decision_ok_decision (parsed : Option Json) (ptMs : Int) (r : SMSDecision)
    (h : make_decision parsed ptMs = .ok r) :
    r.decision = "yes" ∨ r.decision = "no" := by
  unfold make_decision at h
  rcases hb : makeDecisionTryBody parsed ptMs with e | r0 <;> rw [hb] at h <;> simp only [] at h
  · split_ifs at h with hc
    injection h with h'
    subst h'
    right
    rfl
  · injection h with h'
    exact h' ▸ makeDecisionTryBody_ok_decision parsed ptMs r0 hb

/-- Every failed attempt surfaces an exception matched by the retry
predicate: the body's handlers re-raise `RateLimitError` and `APIError`
unchanged and wrap everything else (timeouts included) in `APIError`. -/
theorem chatCompletionOnce_error_retryable (outcome : ProviderOutcome) (model : String)
    (ptMs : Int) (e : PyExc) (h : chatCompletionOnce outcome model ptMs = .error e) :
    shouldRetry e = true := by
  cases outcome with
  | ok resp pt ct => simp [chatCompletionOnce] at h
  | timedOut =>
      simp only [chatCompletionOnce, Except.error.injEq] at h
      subst h
      rfl
  | raises ex =>
      cases ex <;>
          simp [chatCompletionOnce, PyExc.isRateLimit, PyExc.isAPIError] at h <;>
        subst h <;> rfl

/-- An attempt on which the provider call raises always fails. -/
theorem chatCompletionOnce_raises_error (ex : PyExc) (model : String) (ptMs : Int) :
    ∃ e, chatCompletionOnce (.raises ex) model ptMs = .error e := by
  cases ex <;> exact ⟨_, rfl⟩

/-- The attempt on which the retry loop stops never exceeds the first
attempt number plus the attempts still allowed. -/
theorem retryGo_attempt_le (call : Nat → Except PyExc CompletionResult) :
    ∀ fuel attempt, (retryGo call attempt fuel).2 ≤ attempt + fuel := by
  intro fuel
  induction fuel with
  | zero =>
      intro attempt
      cases hc : call attempt <;> simp [retryGo, hc]
  | succ n ih =>
      intro attempt
      cases hc : call attempt with
      | ok r => simp [retryGo, hc]
      | error e =>
          cases hr : shouldRetry e with
          | false => simp [retryGo, hc, hr]
          | true =>
              have := ih (attempt + 1)
              simp only [retryGo, hc, hr, if_true]
              omega

/-- When every attempt fails with a retryable exception, the loop exhausts
its attempts and surfaces the last failure on attempt `attempt + fuel`. -/
theorem retryGo_all_fail (call : Nat → Except PyExc CompletionResult)
    (herr : ∀ n, ∃ e, call n = .error e ∧ shouldRetry e = true) :
    ∀ fuel attempt, (retryGo call attempt fuel).2 = attempt + fuel ∧
      ∃ e, (retryGo call attempt fuel).1 = .error e := by
  intro fuel
  induction fuel with
  | zero =>
      intro attempt
      obtain ⟨e, he, -⟩ := herr attempt
      simp [retryGo, he]
  | succ n ih =>
      intro attempt
      obtain ⟨e, he, hr⟩ := herr attempt
      have h2 := ih (attempt + 1)
      rw [show retryGo call attempt (n + 1) = retryGo call (attempt + 1) n from by
        simp [retryGo, he, hr]]
      exact ⟨by rw [h2.1]; omega, h2.2⟩

/-! ## Claims -/

/-- Claim C1, counterexample: a provider reply that is valid JSON whose
top-level value is not an object (such as "[1, 2]") makes `make_decision`
raise an uncaught `AttributeError`; interpreting the provider output is
therefore not exception-safe for every reply, refuting the claim that any
exception while parsing or interpreting the reply is caught locally. -/
theorem make_decision_raises_on_nonobject_json :
    make_decision (some (Json.arr [Json.num 1, Json.num 2])) 0 =
      .error .attributeError := rfl

/-- Claim C1 (amended): the `except` clause catches only JSON-decode
failures and missing-key errors.  Exactly on the replies described by
`makeDecisionRaises` — JSON whose top-level value is not an object, or an
object whose decision field holds a non-string — `make_decision` raises an
uncaught `AttributeError`; on every other reply (non-JSON text, objects
with an absent or string-valued decision field) it returns a decision
record and does not raise. -/
theorem make_decision_exception_boundary (parsed : Option Json) (ptMs : Int) :
    (makeDecisionRaises parsed = true →
        make_decision parsed ptMs = .error .attributeError) ∧
    (makeDecisionRaises parsed = false →
        ∃ r, make_decision parsed ptMs = .ok r) := by
  constructor
  · intro h
    cases parsed with
    | none => simp [makeDecisionRaises] at h
    | some j =>
        cases j with
        | obj fields =>
            refine make_decision_obj_nonstr fields ptMs (fun s hs => ?_)
            simp only [makeDecisionRaises] at h
            rw [hs] at h
            simp at h
        | null => exact make_decision_nonobj _ _ (fun _ hc => Json.noConfusion hc)
        | bool b => exact make_decision_nonobj _ _ (fun _ hc => Json.noConfusion hc)
        | num n => exact make_decision_nonobj _ _ (fun _ hc => Json.noConfusion hc)
        | str s => exact make_decision_nonobj _ _ (fun _ hc => Json.noConfusion hc)
        | arr xs => exact make_decision_nonobj _ _ (fun _ hc => Json.noConfusion hc)
  · intro h
    cases parsed with
    | none => exact ⟨_, make_decision_none ptMs⟩
    | some j =>
        cases j with
        | obj fields =>
            simp only [makeDecisionRaises] at h
            rcases hv : pyDictGet fields "decision" (Json.str "no")
                with _ | b | n | s | xs | fs <;> rw [hv] at h <;>
              first
                | exact ⟨_, make_decision_obj_str fields _ ptMs hv⟩
                | simp at h
        | null => simp [makeDecisionRaises] at h
        | bool b => simp [makeDecisionRaises] at h
        | num n => simp [makeDecisionRaises] at h
        | str s => simp [makeDecisionRaises] at h
        | arr xs => simp [makeDecisionRaises] at h

/-- Witness for claim C1's amended theorem: a non-string decision field
raises, a string decision field does not. -/
theorem make_decision_exception_boundary_witness :
    (makeDecisionRaises (some (Json.obj [("decision", Json.num 5)])) = true ∧
      make_decision (some (Json.obj [("decision", Json.num 5)])) 0 =
        .error .attributeError) ∧
    (makeDecisionRaises (some (Json.obj [("decision", Json.str "yes")])) = false ∧
      ∃ r, make_decision (some (Json.obj [("decision", Json.str "yes")])) 0 = .ok r) :=
  ⟨⟨rfl, (make_decision_exception_boundary
            (some (Json.obj [("decision", Json.num 5)])) 0).1 rfl⟩,
   ⟨rfl, (make_decision_exception_boundary
            (some (Json.obj [("decision", Json.str "yes")])) 0).2 rfl⟩⟩

/-- Claim C2, counterexample: on the reply "{}" — valid JSON with the
decision field absent — `make_decision` returns the record with reply_text
"", not the claimed fallback record with reply "Unable to process
request". -/
theorem make_decision_missing_field_not_fallback :
    make_decision (some (Json.obj [])) 0 =
      .ok { decision := "no", reply_text := Json.str "",
            processing_time_ms := 0 } ∧
    ("" : String) ≠ "Unable to process request" :=
  ⟨rfl, by decide⟩

/-- Claim C2 (amended): when parsing fails, `make_decision` returns the
fallback record with reply "Unable to process request"; when the reply is
a JSON object whose decision field is absent, `.get` supplies the default
"no" and the returned record carries the payload's reply field (defaulting
to ""), not the fallback text. -/
theorem make_decision_parse_failure_fallback (ptMs : Int)
    (fields : List (String × Json))
    (hmiss : fields.reverse.lookup "decision" = none) :
    make_decision none ptMs =
      .ok { decision := "no", reply_text := .str "Unable to process request",
            processing_time_ms := ptMs } ∧
    make_decision (some (.obj fields)) ptMs =
      .ok { decision := "no", reply_text := pyDictGet fields "reply" (.str ""),
            processing_time_ms := ptMs } := by
  refine ⟨make_decision_none ptMs, ?_⟩
  have hv : pyDictGet fields "decision" (.str "no") = .str "no" := by
    simp [pyDictGet, hmiss]
  rw [make_decision_obj_str fields "no" ptMs hv, show pyLower "no" = "no" from rfl]
  simp

/-- Witness for claim C2's amended theorem at the empty object. -/
theorem make_decision_parse_failure_fallback_witness :
    ([] : List (String × Json)).reverse.lookup "decision" = none ∧
    (make_decision none 0 =
        .ok { decision := "no", reply_text := .str "Unable to process request",
              processing_time_ms := 0 } ∧
     make_decision (some (.obj [])) 0 =
        .ok { decision := "no", reply_text := pyDictGet [] "reply" (.str ""),
              processing_time_ms := 0 }) :=
  ⟨rfl, make_decision_parse_failure_fallback 0 [] rfl⟩

/-- Claim C3: a reply parsing to a JSON object whose decision field holds a
string that is neither "yes" nor "no" case-insensitively is normalized to
decision "no" with the payload's reply field preserved (defaulting to "");
and every record `make_decision` returns carries one of the two enumerated
decisions. -/
theorem make_decision_normalizes :
    (∀ fields s ptMs, pyDictGet fields "decision" (.str "no") = .str s →
        pyLower s ≠ "yes" → pyLower s ≠ "no" →
        make_decision (some (.obj fields)) ptMs =
          .ok { decision := "no",
                reply_text := pyDictGet fields "reply" (.str ""),
                processing_time_ms := ptMs }) ∧
    (∀ parsed ptMs r, make_decision parsed ptMs = .ok r →
        r.decision = "yes" ∨ r.decision = "no") := by
  constructor
  · intro fields s ptMs hv hy hn
    rw [make_decision_obj_str fields s ptMs hv, if_neg (fun hc => hc.elim hy hn)]
  · exact make_decision_ok_decision

/-- Witness for claim C3 at the decision string "Maybe" and at the
fallback record. -/
theorem make_decision_normalizes_witness :
    (pyDictGet [("decision", Json.str "Maybe")] "decision" (.str "no") =
        .str "Maybe" ∧
     pyLower "Maybe" ≠ "yes" ∧ pyLower "Maybe" ≠ "no" ∧
     make_decision (some (.obj [("decision", Json.str "Maybe")])) 0 =
        .ok { decision := "no",
              reply_text := pyDictGet [("decision", Json.str "Maybe")] "reply" (.str ""),
              processing_time_ms := 0 }) ∧
    (make_decision none 0 =
        .ok { decision := "no", reply_text := .str "Unable to process request",
              processing_time_ms := 0 } ∧
     (({ decision := "no", reply_text := .str "Unable to process request",
         processing_time_ms := 0 } : SMSDecision).decision = "yes" ∨
      ({ decision := "no", reply_text := .str "Unable to process request",
         processing_time_ms := 0 } : SMSDecision).decision = "no")) :=
  ⟨⟨rfl, by decide, by decide,
    make_decision_normalizes.1 [("decision", Json.str "Maybe")] "Maybe" 0 rfl
      (by decide) (by decide)⟩,
   ⟨rfl, make_decision_normalizes.2 none 0 _ rfl⟩⟩

/-- Claim C4: a provider rate-limited on the first two attempts and
successful on the third makes `chat_completion` return the successful
result with exactly 3 attempts made; a provider rate-limited on every
attempt makes `chat_completion` fail with the rate-limit error after
exactly 3 attempts. -/
theorem chat_completion_retry_behavior :
    (∀ (s : Settings) (text : String) (sys : Option String) (ptMs : Nat → Int)
        (provider : ChatRequest → Nat → ProviderOutcome) (m₁ m₂ resp : String)
        (ptok ctok : Nat),
        provider (buildChatRequest s text sys) 1 = .raises (.rateLimitError m₁) →
        provider (buildChatRequest s text sys) 2 = .raises (.rateLimitError m₂) →
        provider (buildChatRequest s text sys) 3 = .ok resp ptok ctok →
        chat_completion s provider text sys ptMs =
          (.ok { response := resp, input_tokens := ptok, output_tokens := ctok,
                 processing_time_ms := ptMs 3, model_used := s.openai_model }, 3)) ∧
    (∀ (s : Settings) (text : String) (sys : Option String) (ptMs : Nat → Int)
        (provider : ChatRequest → Nat → ProviderOutcome) (m : String),
        (∀ n, provider (buildChatRequest s text sys) n = .raises (.rateLimitError m)) →
        chat_completion s provider text sys ptMs = (.error (.rateLimitError m), 3)) := by
  constructor
  · intro s text sys ptMs provider m₁ m₂ resp ptok ctok h1 h2 h3
    simp [chat_completion, STOP_AFTER_ATTEMPT, retryGo, h1, h2, h3,
          chatCompletionOnce, shouldRetry, PyExc.isRateLimit, PyExc.isAPIError]
  · intro s text sys ptMs provider m h
    simp [chat_completion, STOP_AFTER_ATTEMPT, retryGo, h 1, h 2, h 3,
          chatCompletionOnce, shouldRetry, PyExc.isRateLimit, PyExc.isAPIError]

/-- Witness for claim C4 at a concrete flaky and a concrete always-failing
provider. -/
theorem chat_completion_retry_behavior_witness :
    chat_completion defaultSettings flakyProvider "hi" none (fun _ => 0) =
      (.ok { response := "hello", input_tokens := 7, output_tokens := 5,
             processing_time_ms := 0, model_used := defaultSettings.openai_model },
       3) ∧
    chat_completion defaultSettings alwaysRateLimited "hi" none (fun _ => 0) =
      (.error (.rateLimitError "rate limited"), 3) :=
  ⟨chat_completion_retry_behavior.1 defaultSettings "hi" none (fun _ => 0)
      flakyProvider "rate limited" "rate limited" "hello" 7 5 rfl rfl rfl,
   chat_completion_retry_behavior.2 defaultSettings "hi" none (fun _ => 0)
      alwaysRateLimited "rate limited" (fun _ => rfl)⟩

/-- Claim C5, counterexample: an authentication failure — named by the
claim as a non-retryable failure that should propagate immediately — is in
fact retried: raised on every provider call it surfaces only on attempt 3,
not after the first attempt. -/
theorem auth_failure_is_retried :
    chat_completion defaultSettings alwaysAuthFailure "hi" none (fun _ => 0) =
      (.error (.authenticationError "Invalid API key"), 3) ∧ 3 ≠ 1 :=
  ⟨rfl, by decide⟩

/-- Claim C5 (amended): `chat_completion` has no non-retryable failure
path.  Every failure surfaced by an attempt is an instance of
`RateLimitError` or `APIError` — the handlers re-raise those classes
unchanged (in the openai client library authentication and
malformed-request failures are `APIError` subclasses) and wrap every other
exception in `APIError` — so the retry predicate matches every failure and
a provider failing on every attempt, with any exception whatsoever,
surfaces an error only after exactly 3 attempts, never immediately. -/
theorem every_failure_retried :
    (∀ (outcome : ProviderOutcome) (model : String) (ptMs : Int) (e : PyExc),
        chatCompletionOnce outcome model ptMs = .error e → shouldRetry e = true) ∧
    (∀ (s : Settings) (text : String) (sys : Option String) (ptMs : Nat → Int)
        (provider : ChatRequest → Nat → ProviderOutcome) (f : Nat → PyExc),
        (∀ n, provider (buildChatRequest s text sys) n = .raises (f n)) →
        (chat_completion s provider text sys ptMs).2 = 3 ∧
        ∃ e, (chat_completion s provider text sys ptMs).1 = .error e) := by
  constructor
  · exact chatCompletionOnce_error_retryable
  · intro s text sys ptMs provider f h
    have herr : ∀ n, ∃ e,
        chatCompletionOnce (provider (buildChatRequest s text sys) n)
          s.openai_model (ptMs n) = .error e ∧ shouldRetry e = true := by
      intro n
      rw [h n]
      obtain ⟨e, he⟩ := chatCompletionOnce_raises_error (f n) s.openai_model (ptMs n)
      exact ⟨e, he, chatCompletionOnce_error_retryable _ _ _ _ he⟩
    have hmain := retryGo_all_fail _ herr 2 1
    exact ⟨hmain.1, hmain.2⟩

/-- Witness for claim C5's amended theorem: the wrapped timeout is
retryable, and a persistent authentication failure exhausts the 3
attempts. -/
theorem every_failure_retried_witness :
    shouldRetry (.apiError "OpenAI request timeout") = true ∧
    (chat_completion defaultSettings alwaysAuthFailure "hi" none (fun _ => 0)).2 = 3 ∧
    ∃ e, (chat_completion defaultSettings alwaysAuthFailure "hi" none
            (fun _ => 0)).1 = .error e :=
  ⟨every_failure_retried.1 .timedOut "gpt-3.5-turbo" 0
      (.apiError "OpenAI request timeout") rfl,
   (every_failure_retried.2 defaultSettings "hi" none (fun _ => 0) alwaysAuthFailure
      (fun _ => .authenticationError "Invalid API key") (fun _ => rfl)).1,
   (every_failure_retried.2 defaultSettings "hi" none (fun _ => 0) alwaysAuthFailure
      (fun _ => .authenticationError "Invalid API key") (fun _ => rfl)).2⟩

/-- Claim C6: the configured timeout defaults to 20 seconds; an attempt on
which no response arrives within it fails as
`APIError "OpenAI request timeout"` — the Timeout-kind provider failure —
and a provider never responding within the timeout makes `chat_completion`
surface that failure after its bounded 3 attempts instead of hanging. -/
theorem timeout_bounded_failure :
    defaultSettings.openai_timeout = 20 ∧
    (∀ (model : String) (ptMs : Int),
        chatCompletionOnce .timedOut model ptMs =
          .error (.apiError "OpenAI request timeout")) ∧
    (∀ (s : Settings) (text : String) (sys : Option String) (ptMs : Nat → Int)
        (provider : ChatRequest → Nat → ProviderOutcome),
        (∀ n, provider (buildChatRequest s text sys) n = .timedOut) →
        chat_completion s provider text sys ptMs =
          (.error (.apiError "OpenAI request timeout"), 3)) := by
  refine ⟨rfl, fun model ptMs => rfl, ?_⟩
  intro s text sys ptMs provider h
  simp [chat_completion, STOP_AFTER_ATTEMPT, retryGo, h 1, h 2, h 3,
        chatCompletionOnce, shouldRetry, PyExc.isRateLimit, PyExc.isAPIError]

/-- Witness for claim C6 at a provider that never responds in time. -/
theorem timeout_bounded_failure_witness :
    chat_completion defaultSettings neverResponds "hi" none (fun _ => 0) =
      (.error (.apiError "OpenAI request timeout"), 3) :=
  timeout_bounded_failure.2.2 defaultSettings "hi" none (fun _ => 0) neverResponds
    (fun _ => rfl)

/-- Claim C7: `validate_response` is true exactly when the text's length
lies in the interval from 1 inclusive to 10000 exclusive; in particular it
is false on the empty string and on any text of 10000 or more characters,
and being a total boolean function it rejects nothing and raises
nothing. -/
theorem validate_response_iff (T : String) :
    validate_response T = true ↔ 1 ≤ T.length ∧ T.length < 10000 := by
  rcases T with ⟨data⟩
  cases data with
  | nil => simp [validate_response]
  | cons c cs =>
      have hne : String.mk (c :: cs) ≠ "" := by
        intro hc
        have h2 := congrArg String.data hc
        simp at h2
      have hlen : (String.mk (c :: cs)).length = cs.length + 1 := by
        simp [String.length]
      simp [validate_response, hne, hlen]

/-- Claim C8: when the client succeeds but the reply fails the
reasonableness check, `process_conversation` fails with
`ValueError "Invalid response from OpenAI"` (the spec's ValidationError)
instead of returning the result, the handler answers 500, and no
conversation log row is persisted. -/
theorem invalid_reply_not_persisted (s : Settings) (userId : Nat) (text : String)
    (ptMs : Nat → Int) (provider : ChatRequest → Nat → ProviderOutcome)
    (result : CompletionResult)
    (hok : (chat_completion s provider text (some CONVERSATION_SYSTEM_PROMPT) ptMs).1 =
        .ok result)
    (hbad : validate_response result.response = false) :
    process_conversation s provider text ptMs =
      .error (.valueError "Invalid response from OpenAI") ∧
    conversationHandler s provider true userId text ptMs =
      (.httpError 500 "Error processing conversation", []) := by
  have hp : process_conversation s provider text ptMs =
      .error (.valueError "Invalid response from OpenAI") := by
    unfold process_conversation
    rw [hok]
    simp [hbad]
  exact ⟨hp, by simp [conversationHandler, hp, PyExc.isAPIError]⟩

/-- Witness for claim C8 at a provider returning the length-0 reply. -/
theorem invalid_reply_not_persisted_witness :
    process_conversation defaultSettings emptyReplyProvider "How are you?" (fun _ => 0) =
      .error (.valueError "Invalid response from OpenAI") ∧
    conversationHandler defaultSettings emptyReplyProvider true 1 "How are you?"
        (fun _ => 0) =
      (.httpError 500 "Error processing conversation", []) :=
  invalid_reply_not_persisted defaultSettings 1 "How are you?" (fun _ => 0)
    emptyReplyProvider
    { response := "", input_tokens := 7, output_tokens := 0,
      processing_time_ms := 0, model_used := "gpt-3.5-turbo" } rfl rfl

/-- Claim C9, counterexample: with `max_retries` configured to 2 (and
`retry_delay` to 5), the retry loop still makes 3 attempts — exceeding the
configured cap — because the decorator hardcodes `stop_after_attempt(3)`;
the attempt count is therefore not bounded by the configured value. -/
theorem retry_config_ignored :
    ({ max_retries := 2, retry_delay := 5 } : Settings).max_retries = 2 ∧
    chat_completion { max_retries := 2, retry_delay := 5 } alwaysRateLimited
        "hi" none (fun _ => 0) =
      (.error (.rateLimitError "rate limited"), 3) ∧
    ¬(3 ≤ 2) :=
  ⟨rfl, rfl, by decide⟩

/-- Claim C9 (amended): the retry cap and wait bounds are fixed constants
of the decorator, not configuration.  For every Settings value — whatever
`max_retries` and `retry_delay` hold — the loop makes at most 3 attempts, a
persistently rate-limited provider yields exactly 3 attempts, and the two
waits actually performed in a full run are the fixed values 1s and 2s
determined by `wait_exponential(multiplier=1, min=1, max=10)`; the
configured values are read into the service but never consulted. -/
theorem retry_constants_fixed :
    (∀ (s : Settings) (text : String) (sys : Option String) (ptMs : Nat → Int)
        (provider : ChatRequest → Nat → ProviderOutcome),
        (chat_completion s provider text sys ptMs).2 ≤ 3) ∧
    (∀ (s : Settings) (text : String) (sys : Option String) (ptMs : Nat → Int)
        (provider : ChatRequest → Nat → ProviderOutcome) (m : String),
        (∀ n, provider (buildChatRequest s text sys) n = .raises (.rateLimitError m)) →
        (chat_completion s provider text sys ptMs).2 = 3) ∧
    retryWait 1 = 1 ∧ retryWait 2 = 2 := by
  refine ⟨?_, ?_, ?_, ?_⟩
  · intro s text sys ptMs provider
    exact retryGo_attempt_le _ 2 1
  · intro s text sys ptMs provider m h
    have herr : ∀ n, ∃ e,
        chatCompletionOnce (provider (buildChatRequest s text sys) n)
          s.openai_model (ptMs n) = .error e ∧ shouldRetry e = true := by
      intro n
      rw [h n]
      exact ⟨.rateLimitError m, rfl, rfl⟩
    exact (retryGo_all_fail _ herr 2 1).1
  · norm_num [retryWait]
  · norm_num [retryWait]

/-- Witness for claim C9's amended theorem at a persistently rate-limited
provider under the default configuration. -/
theorem retry_constants_fixed_witness :
    (chat_completion defaultSettings alwaysRateLimited "bye" none (fun _ => 0)).2 ≤ 3 ∧
    (chat_completion defaultSettings alwaysRateLimited "bye" none (fun _ => 0)).2 = 3 :=
  ⟨retry_constants_fixed.1 defaultSettings "bye" none (fun _ => 0) alwaysRateLimited,
   retry_constants_fixed.2.1 defaultSettings "bye" none (fun _ => 0) alwaysRateLimited
     "rate limited" (fun _ => rfl)⟩

/-- Claim C10: updating or deleting a user or a preference whose id is
absent from the store returns the explicit absent value (`none`) or
`false` respectively, and in both cases leaves the store exactly as it
was. -/
theorem missing_id_is_noop :
    (∀ store user_id upd, userGet store user_id = none →
        userUpdate store user_id upd = (none, store) ∧
        userDelete store user_id = (false, store)) ∧
    (∀ store preference_id upd, prefGet store preference_id = none →
        prefUpdate store preference_id upd = (none, store) ∧
        prefDelete store preference_id = (false, store)) := by
  constructor
  · intro store user_id upd h
    exact ⟨by simp [userUpdate, h], by simp [userDelete, h]⟩
  · intro store preference_id upd h
    exact ⟨by simp [prefUpdate, h], by simp [prefDelete, h]⟩

/-- Witness for claim C10 on a store holding one user (id 1) and one
preference row (id 1), targeting the absent id 2. -/
theorem missing_id_is_noop_witness :
    userGet [{ id := 1, username := "alice", email := "a@b.c",
               phone_number := none, is_active := true }] 2 = none ∧
    (userUpdate [{ id := 1, username := "alice", email := "a@b.c",
                   phone_number := none, is_active := true }] 2 {} =
        (none, [{ id := 1, username := "alice", email := "a@b.c",
                  phone_number := none, is_active := true }]) ∧
     userDelete [{ id := 1, username := "alice", email := "a@b.c",
                   phone_number := none, is_active := true }] 2 =
        (false, [{ id := 1, username := "alice", email := "a@b.c",
                   phone_number := none, is_active := true }])) ∧
    prefGet [{ id := 1, user_id := 1, language := "en", tts_voice := "nova",
               auto_reply_enabled := false, conversation_timeout := 300,
               notification_email := none }] 2 = none ∧
    (prefUpdate [{ id := 1, user_id := 1, language := "en", tts_voice := "nova",
                   auto_reply_enabled := false, conversation_timeout := 300,
                   notification_email := none }] 2 {} =
        (none, [{ id := 1, user_id := 1, language := "en", tts_voice := "nova",
                  auto_reply_enabled := false, conversation_timeout := 300,
                  notification_email := none }]) ∧
     prefDelete [{ id := 1, user_id := 1, language := "en", tts_voice := "nova",
                   auto_reply_enabled := false, conversation_timeout := 300,
                   notification_email := none }] 2 =
        (false, [{ id := 1, user_id := 1, language := "en", tts_voice := "nova",
                   auto_reply_enabled := false, conversation_timeout := 300,
                   notification_email := none }])) :=
  ⟨rfl,
   missing_id_is_noop.1 [{ id := 1, username := "alice", email := "a@b.c",
                           phone_number := none, is_active := true }] 2 {} rfl,
   rfl,
   missing_id_is_noop.2 [{ id := 1, user_id := 1, language := "en",
                           tts_voice := "nova", auto_reply_enabled := false,
                           conversation_timeout := 300,
                           notification_email := none }] 2 {} rfl⟩

end App
